import Mathlib

/-
  Verification development for the Registration CRUD layer
  (src/registration_system.py).

  The Python class RegistrationSystem keeps its state in a single SQLite
  table.  We embed that state as a list of rows plus the AUTOINCREMENT
  counter, and each of the five operations as a pure function on that
  state.  SQLite specifics that the claims depend on are embedded
  faithfully:
    * column values are dynamically typed; user-supplied values are either
      NULL or text, the id column holds an integer;
    * constraint checking order on INSERT/UPDATE is NOT NULL constraints
      (in column order), then CHECK constraints (in declaration order:
      the inline status check, then valid_email, then valid_name), then
      the UNIQUE index on email;
    * a CHECK constraint whose expression evaluates to NULL passes;
    * the LIKE operator is embedded as a general matcher (ASCII
      case-insensitive, "%" matches any run, "_" one character);
    * IntegrityError messages follow the sqlite3 format, e.g.
      "UNIQUE constraint failed: Registration.email";
    * on an exception the connection context manager rolls back, so a
      failing statement leaves the table unchanged; every operation
      returns the (possibly unchanged) state next to its result.
  Python-level behaviour is embedded as well: dictionaries are
  association lists, d[k] on a missing key is a KeyError, d.get(k) yields
  None, and the substring test from the duplicate-email check is the
  Python "in" operator on strings.
  The current timestamp (CURRENT_TIMESTAMP) is passed to create as an
  explicit argument.
-/

/-- A user-visible SQL value for the text columns: NULL or a string. -/
abbrev Value := Option String

/-- A cell of a result row, as sqlite3.Row/dict conversion yields it:
the integer id column, text, or NULL. -/
inductive Cell where
  | null : Cell
  | int : Nat → Cell
  | text : String → Cell
deriving DecidableEq, Repr

/-- One row of the Registration table, in column order. -/
structure Row where
  id : Nat
  name : Value
  email : Value
  date_of_birth : Value
  phone_number : Value
  address : Value
  registration_date : Value
  status : Value
deriving DecidableEq, Repr

/-- The database state: the stored rows and the AUTOINCREMENT counter
(the id the next insert receives; deletes do not lower it). -/
structure DB where
  rows : List Row
  nextId : Nat
deriving DecidableEq, Repr

/-- A fresh database right after create_table. -/
def emptyDB : DB := { rows := [], nextId := 1 }

/-- The errors the Python code can raise: ValueError with a message, or
KeyError for a missing dictionary key. -/
inductive PyError where
  | valueError : String → PyError
  | keyError : String → PyError
deriving DecidableEq, Repr

/-- Python dictionary indexing d[k]: some value when the key is present
(its value may itself be None), none when the key is missing. -/
def dictLookup (d : List (String × Value)) (k : String) : Option Value :=
  (d.find? (fun kv => kv.1 = k)).map (fun kv => kv.2)

/-- Python d.get(k): the stored value, or None when the key is missing. -/
def pyGet (d : List (String × Value)) (k : String) : Value :=
  (dictLookup d k).join

/-- Python substring test (needle in hay) on the underlying characters:
does needle occur as a prefix of some suffix of hay? -/
def substrAt (needle : List Char) : List Char → Bool
  | [] => needle.isEmpty
  | c :: t => needle.isPrefixOf (c :: t) || substrAt needle t

/-- Python string containment: needle in hay. -/
def pyIn (needle hay : String) : Bool :=
  substrAt needle.toList hay.toList

/-- Helper for the "%" wildcard of SQL LIKE: try the rest of the pattern
(m) against every suffix of the text. -/
def likeStar (m : List Char → Bool) : List Char → Bool
  | [] => m []
  | c :: t => m (c :: t) || likeStar m t

/-- SQLite LIKE matching: "%" matches any run of characters, "_" exactly
one, and other pattern characters match ASCII case-insensitively. -/
def likeMatch : List Char → List Char → Bool
  | [], s => s.isEmpty
  | '%' :: ps, s => likeStar (likeMatch ps) s
  | '_' :: ps, s =>
    match s with
    | [] => false
    | _ :: t => likeMatch ps t
  | p :: ps, s =>
    match s with
    | [] => false
    | c :: t => (p.toLower = c.toLower) && likeMatch ps t

/-- The schema's email CHECK: email LIKE the pattern percent, underscore,
at-sign, underscore, underscore, percent, dot, underscore, underscore,
percent (constraint valid_email). -/
def emailOk (e : String) : Bool :=
  likeMatch "%_@__%.__%".toList e.toList

/-- CHECK(status IN ('active', 'inactive', 'pending')); a NULL operand
makes the CHECK pass. -/
def checkStatus : Value → Bool
  | none => true
  | some s => s = "active" || s = "inactive" || s = "pending"

/-- CONSTRAINT valid_email CHECK(email LIKE the pattern); NULL passes. -/
def checkEmailPattern : Value → Bool
  | none => true
  | some e => emailOk e

/-- CONSTRAINT valid_name CHECK(length(name) >= 2); NULL passes. -/
def checkNameLen : Value → Bool
  | none => true
  | some n => decide (2 ≤ n.length)

/-- The sqlite3 IntegrityError cases this schema can produce. -/
inductive IntegrityError where
  | notNull : String → IntegrityError
  | checkFailed : String → IntegrityError
  | uniqueEmail : IntegrityError
deriving DecidableEq, Repr

/-- str(e) for an IntegrityError, in the format sqlite3 uses (CHECK
messages name the violated constraint). -/
def IntegrityError.msg : IntegrityError → String
  | .notNull col => "NOT NULL constraint failed: Registration." ++ col
  | .checkFailed c => "CHECK constraint failed: " ++ c
  | .uniqueEmail => "UNIQUE constraint failed: Registration.email"

/-- Text of the inline status CHECK as sqlite3 reports it. -/
def statusCheckName : String :=
  "status IN (\x27active\x27, \x27inactive\x27, \x27pending\x27)"

/-- Row-local constraints, in the order SQLite enforces them: the NOT
NULL columns (name, email, date_of_birth), then the CHECK constraints in
declaration order (status, valid_email, valid_name). -/
def rowCheckErr (r : Row) : Option IntegrityError :=
  if r.name = none then some (.notNull "name")
  else if r.email = none then some (.notNull "email")
  else if r.date_of_birth = none then some (.notNull "date_of_birth")
  else if checkStatus r.status = false then some (.checkFailed statusCheckName)
  else if checkEmailPattern r.email = false then some (.checkFailed "valid_email")
  else if checkNameLen r.name = false then some (.checkFailed "valid_name")
  else none

/-- The UNIQUE index on email, checked after the row-local constraints:
a non-NULL email may not equal the email of any other stored row (NULLs
never collide in a SQLite UNIQUE index). -/
def uniqueEmailErr (others : List Row) (r : Row) : Option IntegrityError :=
  match r.email with
  | none => none
  | some e => if others.any (fun q => q.email = some e) then some .uniqueEmail else none

/-- All constraints for inserting row r into db. -/
def insertErr (db : DB) (r : Row) : Option IntegrityError :=
  match rowCheckErr r with
  | some ie => some ie
  | none => uniqueEmailErr db.rows r

/-- The row the INSERT of create_registration builds: the three required
values, the two optional ones via .get, the registration_date default
(the current timestamp) and the status default. -/
def buildRow (db : DB) (now : String) (nm em dob : Value)
    (user_data : List (String × Value)) : Row :=
  { id := db.nextId
    name := nm
    email := em
    date_of_birth := dob
    phone_number := pyGet user_data "phone_number"
    address := pyGet user_data "address"
    registration_date := some now
    status := some "active" }

/-- create_registration: look up the three required keys (KeyError when
missing, before anything is written), insert the new row; an
IntegrityError whose text contains "email" becomes ValueError
"Email already exists", any other becomes ValueError of its own text.
The returned state is unchanged on every error path. -/
def create_registration (db : DB) (now : String)
    (user_data : List (String × Value)) : Except PyError Nat × DB :=
  match dictLookup user_data "name" with
  | none => (Except.error (PyError.keyError "name"), db)
  | some nm =>
    match dictLookup user_data "email" with
    | none => (Except.error (PyError.keyError "email"), db)
    | some em =>
      match dictLookup user_data "date_of_birth" with
      | none => (Except.error (PyError.keyError "date_of_birth"), db)
      | some dob =>
        match insertErr db (buildRow db now nm em dob user_data) with
        | some ie =>
          (Except.error (PyError.valueError
            (if pyIn "email" ie.msg then "Email already exists" else ie.msg)), db)
        | none =>
          (Except.ok db.nextId,
           { rows := db.rows ++ [buildRow db now nm em dob user_data],
             nextId := db.nextId + 1 })

/-- dict(row) for a fetched row: column names to cell values, in the
column order of the table. -/
def Row.toDict (r : Row) : List (String × Cell) :=
  [("id", Cell.int r.id),
   ("name", r.name.elim Cell.null Cell.text),
   ("email", r.email.elim Cell.null Cell.text),
   ("date_of_birth", r.date_of_birth.elim Cell.null Cell.text),
   ("phone_number", r.phone_number.elim Cell.null Cell.text),
   ("address", r.address.elim Cell.null Cell.text),
   ("registration_date", r.registration_date.elim Cell.null Cell.text),
   ("status", r.status.elim Cell.null Cell.text)]

/-- read_registration: SELECT * WHERE id = ?; dict(result) when a row
matches, None otherwise. (id is the INTEGER PRIMARY KEY, so at most one
row can match.) -/
def read_registration (db : DB) (i : Nat) : Option (List (String × Cell)) :=
  (db.rows.find? (fun r => r.id = i)).map Row.toDict

/-- read_all_registrations: SELECT * — every stored row as a dict, in
storage (insertion) order. -/
def read_all_registrations (db : DB) : List (List (String × Cell)) :=
  db.rows.map Row.toDict

/-- The allowed_fields set of update_registration. -/
def allowed_fields : List String :=
  ["name", "email", "date_of_birth", "phone_number", "address", "status"]

/-- One SET clause: write value v to column k of row r; an unknown k
writes nothing (cannot occur after filtering, kept total). -/
def setField (r : Row) (k : String) (v : Value) : Row :=
  if k = "name" then { r with name := v }
  else if k = "email" then { r with email := v }
  else if k = "date_of_birth" then { r with date_of_birth := v }
  else if k = "phone_number" then { r with phone_number := v }
  else if k = "address" then { r with address := v }
  else if k = "status" then { r with status := v }
  else r

/-- Apply all SET clauses of the filtered patch, left to right. -/
def applyPatch (r : Row) (fs : List (String × Value)) : Row :=
  fs.foldl (fun acc kv => setField acc kv.1 kv.2) r

/-- update_registration: filter the patch to allowed_fields; an empty
filtered patch raises ValueError "No valid fields to update" before any
statement runs; otherwise UPDATE ... WHERE id = ? — no matching row
yields rowcount 0, hence False; a matching row (unique, id is the
primary key) gets the SET clauses applied and the constraints re-checked
(uniqueness of the new email against all other rows); an IntegrityError
is re-raised as ValueError of its text, with no duplicate-email special
case; otherwise the row is replaced and True returned. -/
def update_registration (db : DB) (i : Nat)
    (update_data : List (String × Value)) : Except PyError Bool × DB :=
  if (update_data.filter (fun kv => allowed_fields.contains kv.1)).isEmpty then
    (Except.error (PyError.valueError "No valid fields to update"), db)
  else
    match db.rows.find? (fun r => r.id = i) with
    | none => (Except.ok false, db)
    | some r =>
      match (rowCheckErr (applyPatch r (update_data.filter (fun kv => allowed_fields.contains kv.1)))).orElse
          (fun _ => uniqueEmailErr (db.rows.filter (fun q => q.id ≠ i))
            (applyPatch r (update_data.filter (fun kv => allowed_fields.contains kv.1)))) with
      | some ie => (Except.error (PyError.valueError ie.msg), db)
      | none =>
        (Except.ok true,
         { db with rows := db.rows.map (fun q =>
             if q.id = i
             then applyPatch r (update_data.filter (fun kv => allowed_fields.contains kv.1))
             else q) })

/-- delete_registration: DELETE WHERE id = ?; True exactly when a row
matched, and the matching row is removed. -/
def delete_registration (db : DB) (i : Nat) : Bool × DB :=
  (db.rows.any (fun r => r.id = i),
   { db with rows := db.rows.filter (fun r => r.id ≠ i) })

/-- States reachable through the store: ids are pairwise distinct and
below the AUTOINCREMENT counter, and every stored row passed the
row-local schema constraints. -/
def DB.wf (db : DB) : Prop :=
  db.rows.Pairwise (fun a b => a.id ≠ b.id) ∧
  (∀ r ∈ db.rows, r.id < db.nextId) ∧
  (∀ r ∈ db.rows, rowCheckErr r = none)

instance (db : DB) : Decidable db.wf := by
  unfold DB.wf; infer_instance

/-! ## Concrete states used to instantiate theorems with hypotheses -/

/-- A stored row with id 1. -/
def exRow1 : Row :=
  { id := 1, name := some "Ann", email := some "ab@cd.ef",
    date_of_birth := some "1990-01-01", phone_number := none, address := none,
    registration_date := some "2024-01-01 00:00:00", status := some "active" }

/-- A stored row with id 2. -/
def exRow2 : Row :=
  { id := 2, name := some "Bob", email := some "gh@ij.kl",
    date_of_birth := some "1991-02-02", phone_number := some "123",
    address := some "1 Main St", registration_date := some "2024-01-02 00:00:00",
    status := some "active" }

/-- A two-row state, as left behind by two successful creates. -/
def exDB : DB := { rows := [exRow1, exRow2], nextId := 3 }

/-! ## The LIKE matcher, step by step -/

theorem likeMatch_nil (s : List Char) : likeMatch [] s = s.isEmpty := rfl

theorem likeMatch_percent (ps s : List Char) :
    likeMatch ('%' :: ps) s = likeStar (likeMatch ps) s := rfl

theorem likeMatch_underscore_nil (ps : List Char) : likeMatch ('_' :: ps) [] = false := rfl

theorem likeMatch_underscore_cons (ps : List Char) (c : Char) (t : List Char) :
    likeMatch ('_' :: ps) (c :: t) = likeMatch ps t := rfl

theorem likeMatch_at_nil (ps : List Char) : likeMatch ('@' :: ps) [] = false := rfl

theorem likeMatch_at_cons (ps : List Char) (c : Char) (t : List Char) :
    likeMatch ('@' :: ps) (c :: t) = (decide ('@'.toLower = c.toLower) && likeMatch ps t) := rfl

theorem likeMatch_dot_nil (ps : List Char) : likeMatch ('.' :: ps) [] = false := rfl

theorem likeMatch_dot_cons (ps : List Char) (c : Char) (t : List Char) :
    likeMatch ('.' :: ps) (c :: t) = (decide ('.'.toLower = c.toLower) && likeMatch ps t) := rfl

/-- The percent wildcard matches exactly when some split of the text lets
the rest of the pattern match the remainder. -/
theorem likeStar_eq_true_iff {m : List Char → Bool} {s : List Char} :
    likeStar m s = true ↔ ∃ a b, s = a ++ b ∧ m b = true := by
  induction s with
  | nil =>
    simp [likeStar]
    constructor
    · intro h; exact ⟨[], [], by simp, h⟩
    · rintro ⟨a, b, hab, hb⟩
      obtain ⟨rfl, rfl⟩ : a = [] ∧ b = [] := by
        constructor <;> cases a <;> simp_all
      exact hb
  | cons c t ih =>
    simp only [likeStar, Bool.or_eq_true, ih]
    constructor
    · rintro (h | ⟨a, b, rfl, hb⟩)
      · exact ⟨[], c :: t, rfl, h⟩
      · exact ⟨c :: a, b, rfl, hb⟩
    · rintro ⟨a, b, hab, hb⟩
      cases a with
      | nil => left; simpa using hab ▸ hb
      | cons x a =>
        right
        simp only [List.cons_append, List.cons.injEq] at hab
        exact ⟨a, b, hab.2, hb⟩

/-- ASCII case folding is the identity on characters below the upper-case
range, so matching such a literal pattern character case-insensitively is
plain equality. -/
theorem toLower_eq_iff {p : Char} (hp : p.toNat < 65) (hl : p.toLower = p) (c : Char) :
    p.toLower = c.toLower ↔ c = p := by
  constructor
  · intro h
    rw [hl] at h
    have h2 : p = if c.toNat ≥ 65 ∧ c.toNat ≤ 90 then Char.ofNat (c.toNat + 32) else c := h
    split at h2
    next hc =>
      exfalso
      have hval := congrArg Char.toNat h2
      have hlt : c.toNat + 32 < 55296 := by omega
      have he : (Char.ofNat (c.toNat + 32)).toNat = c.toNat + 32 := by
        rw [Char.ofNat, dif_pos (Or.inl hlt)]
        rfl
      rw [he] at hval
      omega
    next => exact h2.symm
  · rintro rfl
    exact hl ▸ rfl

theorem toLower_at_iff (c : Char) : '@'.toLower = c.toLower ↔ c = '@' :=
  toLower_eq_iff (by decide) rfl c

theorem toLower_dot_iff (c : Char) : '.'.toLower = c.toLower ↔ c = '.' :=
  toLower_eq_iff (by decide) rfl c

/-- The trailing percent of the pattern matches any remaining text. -/
theorem likeMatch_percent_only (t : List Char) : likeMatch ['%'] t = true := by
  rw [likeMatch_percent, likeStar_eq_true_iff]
  exact ⟨t, [], by simp, rfl⟩

/-- The tail of the email pattern (dot, underscore, underscore, percent)
matches a text exactly when the text starts with a dot followed by at
least two characters. -/
theorem likeMatch_email_tail (h : List Char) :
    likeMatch ['.', '_', '_', '%'] h = true ↔ ∃ c4 c5 d, h = '.' :: c4 :: c5 :: d := by
  constructor
  · intro hm
    match h with
    | [] => exact absurd hm (by rw [likeMatch_dot_nil]; simp)
    | d0 :: h1 =>
      rw [likeMatch_dot_cons, Bool.and_eq_true, decide_eq_true_eq, toLower_dot_iff] at hm
      obtain ⟨rfl, hm⟩ := hm
      match h1 with
      | [] => exact absurd hm (by rw [likeMatch_underscore_nil]; simp)
      | c4 :: h2 =>
        rw [likeMatch_underscore_cons] at hm
        match h2 with
        | [] => exact absurd hm (by rw [likeMatch_underscore_nil]; simp)
        | c5 :: h3 => exact ⟨c4, c5, h3, rfl⟩
  · rintro ⟨c4, c5, d, rfl⟩
    rw [likeMatch_dot_cons, likeMatch_underscore_cons, likeMatch_underscore_cons]
    simp [likeMatch_percent_only]

/-- Full characterization of the email CHECK: the stored LIKE pattern
accepts exactly the strings of shape
(anything) (one char) at-sign (two chars) (anything) dot (two chars) (anything). -/
theorem emailOk_iff (e : String) :
    emailOk e = true ↔
      ∃ (a : List Char) (c1 c2 c3 : Char) (b : List Char) (c4 c5 : Char) (d : List Char),
        e.toList = a ++ c1 :: '@' :: c2 :: c3 :: (b ++ '.' :: c4 :: c5 :: d) := by
  have hpat : ("%_@__%.__%".toList : List Char) =
      ['%', '_', '@', '_', '_', '%', '.', '_', '_', '%'] := rfl
  rw [emailOk, hpat]
  constructor
  · intro hm
    rw [likeMatch_percent, likeStar_eq_true_iff] at hm
    obtain ⟨a, b0, hs, hb⟩ := hm
    match b0, hb with
    | [], hb => exact absurd hb (by rw [likeMatch_underscore_nil]; simp)
    | c1 :: b1, hb =>
      rw [likeMatch_underscore_cons] at hb
      match b1, hb with
      | [], hb => exact absurd hb (by rw [likeMatch_at_nil]; simp)
      | ca :: b2, hb =>
        rw [likeMatch_at_cons, Bool.and_eq_true, decide_eq_true_eq, toLower_at_iff] at hb
        obtain ⟨rfl, hb⟩ := hb
        match b2, hb with
        | [], hb => exact absurd hb (by rw [likeMatch_underscore_nil]; simp)
        | c2 :: b3, hb =>
          rw [likeMatch_underscore_cons] at hb
          match b3, hb with
          | [], hb => exact absurd hb (by rw [likeMatch_underscore_nil]; simp)
          | c3 :: b4, hb =>
            rw [likeMatch_underscore_cons, likeMatch_percent, likeStar_eq_true_iff] at hb
            obtain ⟨g, h0, rfl, hh⟩ := hb
            rw [likeMatch_email_tail] at hh
            obtain ⟨c4, c5, d, rfl⟩ := hh
            exact ⟨a, c1, c2, c3, g, c4, c5, d, by simpa using hs⟩
  · rintro ⟨a, c1, c2, c3, b, c4, c5, d, he⟩
    rw [he, likeMatch_percent, likeStar_eq_true_iff]
    refine ⟨a, _, rfl, ?_⟩
    rw [likeMatch_underscore_cons, likeMatch_at_cons, Bool.and_eq_true,
      decide_eq_true_eq, toLower_at_iff]
    refine ⟨rfl, ?_⟩
    rw [likeMatch_underscore_cons, likeMatch_underscore_cons, likeMatch_percent,
      likeStar_eq_true_iff]
    exact ⟨b, _, rfl, by rw [likeMatch_email_tail]; exact ⟨c4, c5, d, rfl⟩⟩

/-! ## The email shape as the specification describes it -/

/-- The acceptance condition as the specification words it: at least one
character before the at-sign, at least one character between the at-sign
and the dot, and at least two characters after the final dot. (This is
the claimed reading of the CHECK, written from the spec text, to be
compared against emailOk.) -/
def specEmailAccept (e : String) : Prop :=
  ∃ (pre mid post : List Char),
    e.toList = pre ++ '@' :: (mid ++ '.' :: post) ∧
    1 ≤ pre.length ∧ 1 ≤ mid.length ∧ 2 ≤ post.length ∧ '.' ∉ post

/-! ## Characterizations of the constraint checks -/

/-- The row-local constraints pass exactly when the three required
columns are non-NULL and the three CHECK constraints hold. -/
theorem rowCheckErr_eq_none (r : Row) :
    rowCheckErr r = none ↔
      r.name ≠ none ∧ r.email ≠ none ∧ r.date_of_birth ≠ none ∧
      checkStatus r.status = true ∧ checkEmailPattern r.email = true ∧
      checkNameLen r.name = true := by
  unfold rowCheckErr
  split_ifs <;> simp_all

/-- The uniqueness check passes exactly when no other row carries the
same non-NULL email. -/
theorem uniqueEmailErr_eq_none (others : List Row) (r : Row) :
    uniqueEmailErr others r = none ↔
      ∀ e, r.email = some e → ∀ q ∈ others, q.email ≠ some e := by
  cases hr : r.email with
  | none => simp [uniqueEmailErr, hr]
  | some e =>
    simp only [uniqueEmailErr, hr]
    split_ifs with h
    · simp only [List.any_eq_true, decide_eq_true_eq] at h
      constructor
      · intro hco
        exact absurd hco (by simp)
      · intro hall
        obtain ⟨q, hq, hqe⟩ := h
        exact absurd hqe (hall e rfl q hq)
    · simp only [List.any_eq_true, decide_eq_true_eq, not_exists, not_and] at h
      simp only [true_iff, Option.some.injEq]
      rintro e2 he2 q hq
      cases he2
      exact h q hq

/-! ## Inversion and rewriting lemmas for the operations -/

/-- With the three required keys present, create reduces to the
constraint check on the built row. -/
theorem create_registration_with_keys {u : List (String × Value)} {nm em dob : Value}
    (db : DB) (now : String)
    (h1 : dictLookup u "name" = some nm) (h2 : dictLookup u "email" = some em)
    (h3 : dictLookup u "date_of_birth" = some dob) :
    create_registration db now u =
      (match insertErr db (buildRow db now nm em dob u) with
       | some ie =>
         (Except.error (PyError.valueError
           (if pyIn "email" ie.msg then "Email already exists" else ie.msg)), db)
       | none =>
         (Except.ok db.nextId,
          { rows := db.rows ++ [buildRow db now nm em dob u], nextId := db.nextId + 1 })) := by
  unfold create_registration
  rw [h1, h2, h3]

/-- Anything a successful create tells us: the returned id is the
counter, the counter advances, and the new row is appended. -/
theorem create_registration_ok {db db2 : DB} {now : String}
    {u : List (String × Value)} {i : Nat}
    (h : create_registration db now u = (Except.ok i, db2)) :
    i = db.nextId ∧ db2.nextId = db.nextId + 1 ∧
      ∃ nm em dob,
        dictLookup u "name" = some nm ∧ dictLookup u "email" = some em ∧
        dictLookup u "date_of_birth" = some dob ∧
        insertErr db (buildRow db now nm em dob u) = none ∧
        db2.rows = db.rows ++ [buildRow db now nm em dob u] := by
  cases hnm : dictLookup u "name" with
  | none => unfold create_registration at h; rw [hnm] at h; simp at h
  | some nm =>
    cases hem : dictLookup u "email" with
    | none => unfold create_registration at h; rw [hnm, hem] at h; simp at h
    | some em =>
      cases hdob : dictLookup u "date_of_birth" with
      | none => unfold create_registration at h; rw [hnm, hem, hdob] at h; simp at h
      | some dob =>
        rw [create_registration_with_keys db now hnm hem hdob] at h
        cases hins : insertErr db (buildRow db now nm em dob u) with
        | some ie => rw [hins] at h; simp at h
        | none =>
          rw [hins] at h
          simp only [Prod.mk.injEq, Except.ok.injEq] at h
          obtain ⟨h1, h2⟩ := h
          subst h1
          refine ⟨rfl, by rw [← h2], nm, em, dob, rfl, rfl, rfl, hins, by rw [← h2]⟩

/-- In a list of rows with pairwise distinct ids, the search by id finds
the member row carrying that id. -/
theorem find?_id_eq_some {rows : List Row} {r : Row} {i : Nat}
    (hpw : rows.Pairwise (fun a b => a.id ≠ b.id)) (hr : r ∈ rows) (hid : r.id = i) :
    rows.find? (fun q => q.id = i) = some r := by
  induction rows with
  | nil => cases hr
  | cons a t ih =>
    rw [List.pairwise_cons] at hpw
    rcases List.mem_cons.mp hr with rfl | hrt
    · rw [List.find?_cons_of_pos _ (by simpa using hid)]
    · have hane : a.id ≠ i := fun hai => (hpw.1 r hrt) (hai.trans hid.symm)
      rw [List.find?_cons_of_neg _ (by simpa using hane)]
      exact ih hpw.2 hrt

/-- If no stored row carries the id, the search by id fails. -/
theorem find?_id_eq_none {rows : List Row} {i : Nat}
    (h : ∀ r ∈ rows, r.id ≠ i) :
    rows.find? (fun q => q.id = i) = none := by
  rw [List.find?_eq_none]
  intro r hr
  simpa using h r hr

/-- setField never writes the id column. -/
theorem setField_id (r : Row) (k : String) (v : Value) : (setField r k v).id = r.id := by
  unfold setField
  split_ifs <;> rfl

/-- setField never writes the registration_date column. -/
theorem setField_registration_date (r : Row) (k : String) (v : Value) :
    (setField r k v).registration_date = r.registration_date := by
  unfold setField
  split_ifs <;> rfl

/-- Unfolding one SET clause of applyPatch. -/
theorem applyPatch_cons (r : Row) (kv : String × Value) (t : List (String × Value)) :
    applyPatch r (kv :: t) = applyPatch (setField r kv.1 kv.2) t := rfl

/-- applyPatch never writes the id column. -/
theorem applyPatch_id (fs : List (String × Value)) (r : Row) :
    (applyPatch r fs).id = r.id := by
  induction fs generalizing r with
  | nil => rfl
  | cons kv t ih => rw [applyPatch_cons, ih, setField_id]

/-- applyPatch never writes the registration_date column. -/
theorem applyPatch_registration_date (fs : List (String × Value)) (r : Row) :
    (applyPatch r fs).registration_date = r.registration_date := by
  induction fs generalizing r with
  | nil => rfl
  | cons kv t ih => rw [applyPatch_cons, ih, setField_registration_date]

theorem orElse_none_eq {α : Type} (f : Unit → Option α) :
    (none : Option α).orElse f = f () := rfl

theorem orElse_some_eq {α : Type} (a : α) (f : Unit → Option α) :
    (some a).orElse f = some a := rfl

/-- setField on a key other than name leaves name unchanged. -/
theorem setField_name_of_ne (r : Row) (k : String) (v : Value) (h : k ≠ "name") :
    (setField r k v).name = r.name := by
  unfold setField
  split_ifs <;> first | rfl | simp_all

/-- setField on a key other than email leaves email unchanged. -/
theorem setField_email_of_ne (r : Row) (k : String) (v : Value) (h : k ≠ "email") :
    (setField r k v).email = r.email := by
  unfold setField
  split_ifs <;> first | rfl | simp_all

/-- setField on a key other than date_of_birth leaves date_of_birth unchanged. -/
theorem setField_dob_of_ne (r : Row) (k : String) (v : Value) (h : k ≠ "date_of_birth") :
    (setField r k v).date_of_birth = r.date_of_birth := by
  unfold setField
  split_ifs <;> first | rfl | simp_all

/-- setField on a key other than phone_number leaves phone_number unchanged. -/
theorem setField_phone_of_ne (r : Row) (k : String) (v : Value) (h : k ≠ "phone_number") :
    (setField r k v).phone_number = r.phone_number := by
  unfold setField
  split_ifs <;> first | rfl | simp_all

/-- setField on a key other than address leaves address unchanged. -/
theorem setField_address_of_ne (r : Row) (k : String) (v : Value) (h : k ≠ "address") :
    (setField r k v).address = r.address := by
  unfold setField
  split_ifs <;> first | rfl | simp_all

/-- setField on a key other than status leaves status unchanged. -/
theorem setField_status_of_ne (r : Row) (k : String) (v : Value) (h : k ≠ "status") :
    (setField r k v).status = r.status := by
  unfold setField
  split_ifs <;> first | rfl | simp_all

/-- A patch without the name key leaves name unchanged. -/
theorem applyPatch_name (fs : List (String × Value)) (r : Row)
    (h : "name" ∉ fs.map Prod.fst) : (applyPatch r fs).name = r.name := by
  induction fs generalizing r with
  | nil => rfl
  | cons kv t ih =>
    simp only [List.map_cons, List.mem_cons, not_or] at h
    rw [applyPatch_cons, ih _ h.2, setField_name_of_ne _ _ _ (fun hk => h.1 hk.symm)]

/-- A patch without the email key leaves email unchanged. -/
theorem applyPatch_email (fs : List (String × Value)) (r : Row)
    (h : "email" ∉ fs.map Prod.fst) : (applyPatch r fs).email = r.email := by
  induction fs generalizing r with
  | nil => rfl
  | cons kv t ih =>
    simp only [List.map_cons, List.mem_cons, not_or] at h
    rw [applyPatch_cons, ih _ h.2, setField_email_of_ne _ _ _ (fun hk => h.1 hk.symm)]

/-- A patch without the date_of_birth key leaves date_of_birth unchanged. -/
theorem applyPatch_dob (fs : List (String × Value)) (r : Row)
    (h : "date_of_birth" ∉ fs.map Prod.fst) :
    (applyPatch r fs).date_of_birth = r.date_of_birth := by
  induction fs generalizing r with
  | nil => rfl
  | cons kv t ih =>
    simp only [List.map_cons, List.mem_cons, not_or] at h
    rw [applyPatch_cons, ih _ h.2, setField_dob_of_ne _ _ _ (fun hk => h.1 hk.symm)]

/-- A patch without the phone_number key leaves phone_number unchanged. -/
theorem applyPatch_phone (fs : List (String × Value)) (r : Row)
    (h : "phone_number" ∉ fs.map Prod.fst) :
    (applyPatch r fs).phone_number = r.phone_number := by
  induction fs generalizing r with
  | nil => rfl
  | cons kv t ih =>
    simp only [List.map_cons, List.mem_cons, not_or] at h
    rw [applyPatch_cons, ih _ h.2, setField_phone_of_ne _ _ _ (fun hk => h.1 hk.symm)]

/-- A patch without the address key leaves address unchanged. -/
theorem applyPatch_address (fs : List (String × Value)) (r : Row)
    (h : "address" ∉ fs.map Prod.fst) : (applyPatch r fs).address = r.address := by
  induction fs generalizing r with
  | nil => rfl
  | cons kv t ih =>
    simp only [List.map_cons, List.mem_cons, not_or] at h
    rw [applyPatch_cons, ih _ h.2, setField_address_of_ne _ _ _ (fun hk => h.1 hk.symm)]

/-- A patch without the status key leaves status unchanged. -/
theorem applyPatch_status (fs : List (String × Value)) (r : Row)
    (h : "status" ∉ fs.map Prod.fst) : (applyPatch r fs).status = r.status := by
  induction fs generalizing r with
  | nil => rfl
  | cons kv t ih =>
    simp only [List.map_cons, List.mem_cons, not_or] at h
    rw [applyPatch_cons, ih _ h.2, setField_status_of_ne _ _ _ (fun hk => h.1 hk.symm)]

/-! ## Claim C3: the email pattern -/

/-- Claim C3 counterexample: the claim states that an email is accepted
exactly when it has at least one character before the at-sign, at least
one between the at-sign and the dot, and at least two after the final
dot, and names a@b.cd as accepted.  The string a@b.cd satisfies that
description (witnessed by the explicit decomposition) yet the stored
CHECK rejects it: the LIKE pattern demands two characters between the
at-sign and the dot. -/
theorem claim3_counterexample :
    specEmailAccept "a@b.cd" ∧ emailOk "a@b.cd" = false := by
  refine ⟨⟨['a'], ['b'], ['c', 'd'], by decide, by decide, by decide, by decide, by decide⟩, by decide⟩

/-- Claim C3, amended: an email string is accepted by the CHECK exactly
when it splits as any prefix, one character, the at-sign, two
characters, any run, a dot, and at least two further characters (the
dot need not be the last dot of the string).  In particular at least
two characters must lie between the at-sign and the dot, so a@b.cd is
rejected. -/
theorem claim3_thm (e : String) :
    emailOk e = true ↔
      ∃ (a : List Char) (c1 c2 c3 : Char) (b : List Char) (c4 c5 : Char) (d : List Char),
        e.toList = a ++ c1 :: '@' :: c2 :: c3 :: (b ++ '.' :: c4 :: c5 :: d) :=
  emailOk_iff e

/-! ## Claim C10: missing required keys -/

/-- Claim C10: a create input missing one of the required keys name,
email or date_of_birth raises an uncaught KeyError naming the first
missing key (checked in the order name, email, date_of_birth) — a
different error kind from the ValueError taxonomy — and the store is
unchanged. -/
theorem claim10_thm :
    (∀ (db : DB) (now : String) (u : List (String × Value)),
      dictLookup u "name" = none →
      create_registration db now u = (Except.error (PyError.keyError "name"), db))
    ∧
    (∀ (db : DB) (now : String) (u : List (String × Value)) (nm : Value),
      dictLookup u "name" = some nm → dictLookup u "email" = none →
      create_registration db now u = (Except.error (PyError.keyError "email"), db))
    ∧
    (∀ (db : DB) (now : String) (u : List (String × Value)) (nm em : Value),
      dictLookup u "name" = some nm → dictLookup u "email" = some em →
      dictLookup u "date_of_birth" = none →
      create_registration db now u = (Except.error (PyError.keyError "date_of_birth"), db))
    ∧
    (∀ (k m : String), PyError.keyError k ≠ PyError.valueError m) := by
  refine ⟨?_, ?_, ?_, ?_⟩
  · intro db now u h
    simp [create_registration, h]
  · intro db now u nm h1 h2
    simp [create_registration, h1, h2]
  · intro db now u nm em h1 h2 h3
    simp [create_registration, h1, h2, h3]
  · intro k m h
    cases h

/-- Witness for claim C10 at concrete inputs: one dictionary per missing
key, each evaluated on the two-row example state. -/
theorem claim10_witness :
    create_registration exDB "2024-03-03 00:00:00" [("email", some "x@yz.ab")] =
      (Except.error (PyError.keyError "name"), exDB) ∧
    create_registration exDB "2024-03-03 00:00:00" [("name", some "Dan")] =
      (Except.error (PyError.keyError "email"), exDB) ∧
    create_registration exDB "2024-03-03 00:00:00"
        [("name", some "Dan"), ("email", some "x@yz.ab")] =
      (Except.error (PyError.keyError "date_of_birth"), exDB) ∧
    PyError.keyError "name" ≠ PyError.valueError "Email already exists" :=
  ⟨claim10_thm.1 exDB "2024-03-03 00:00:00" [("email", some "x@yz.ab")] rfl,
   claim10_thm.2.1 exDB "2024-03-03 00:00:00" [("name", some "Dan")] (some "Dan") rfl rfl,
   claim10_thm.2.2.1 exDB "2024-03-03 00:00:00"
     [("name", some "Dan"), ("email", some "x@yz.ab")] (some "Dan") (some "x@yz.ab")
     rfl rfl rfl,
   claim10_thm.2.2.2 "name" "Email already exists"⟩

/-! ## Claim C2: create-side validation -/

/-- The insert constraint check passes exactly when the row-local checks
and the email uniqueness check both pass. -/
theorem insertErr_eq_none {db : DB} {r : Row} :
    insertErr db r = none ↔ rowCheckErr r = none ∧ uniqueEmailErr db.rows r = none := by
  unfold insertErr
  cases h : rowCheckErr r <;> simp [h]

/-- A create input whose supplied status is not an allowed value. -/
def uStatusBogus : List (String × Value) :=
  [("name", some "John Doe"), ("email", some "john.doe@example.com"),
   ("date_of_birth", some "1990-01-01"), ("status", some "bogus")]

/-- Claim C2 counterexample: the claim states that create fails with a
validation error when a status field with a disallowed value is
supplied.  In the code the INSERT statement never passes status, so the
input is accepted: create succeeds, returns id 1 on the empty store,
and the inserted row carries status active. -/
theorem claim2_counterexample :
    (create_registration emptyDB "2024-01-01 00:00:00" uStatusBogus).1 = Except.ok 1 ∧
    ((create_registration emptyDB "2024-01-01 00:00:00" uStatusBogus).2.rows.map
      Row.status) = [some "active"] := by
  exact ⟨rfl, rfl⟩

/-- Claim C2, amended: create fails with a validation error (a
ValueError) and inserts no row when the supplied name is shorter than
two characters or the supplied email fails the stored pattern; a
supplied status key, however, is ignored entirely — the INSERT never
writes it — so any successfully created row carries status active no
matter what status value the input held. -/
theorem claim2_thm :
    (∀ (db : DB) (now : String) (u : List (String × Value)) (nm : String) (dob : Value),
      dictLookup u "name" = some (some nm) → nm.length < 2 →
      (∃ em, dictLookup u "email" = some em) → dictLookup u "date_of_birth" = some dob →
      ∃ m, create_registration db now u = (Except.error (PyError.valueError m), db))
    ∧
    (∀ (db : DB) (now : String) (u : List (String × Value)) (nm : Value) (em : String) (dob : Value),
      dictLookup u "name" = some nm →
      dictLookup u "email" = some (some em) → emailOk em = false →
      dictLookup u "date_of_birth" = some dob →
      ∃ m, create_registration db now u = (Except.error (PyError.valueError m), db))
    ∧
    (∀ (db : DB) (now : String) (u : List (String × Value)) (i : Nat) (db2 : DB),
      create_registration db now u = (Except.ok i, db2) →
      ∃ r, db2.rows = db.rows ++ [r] ∧ r.status = some "active") := by
  refine ⟨?_, ?_, ?_⟩
  · rintro db now u nm dob h1 hlen ⟨em, h2⟩ h3
    rw [create_registration_with_keys db now h1 h2 h3]
    cases hins : insertErr db (buildRow db now (some nm) em dob u) with
    | some ie => exact ⟨_, rfl⟩
    | none =>
      exfalso
      have hrc := (insertErr_eq_none.mp hins).1
      rw [rowCheckErr_eq_none] at hrc
      have := hrc.2.2.2.2.2
      simp only [buildRow, checkNameLen, decide_eq_true_eq] at this
      omega
  · rintro db now u nm em dob h1 h2 hbad h3
    rw [create_registration_with_keys db now h1 h2 h3]
    cases hins : insertErr db (buildRow db now nm (some em) dob u) with
    | some ie => exact ⟨_, rfl⟩
    | none =>
      exfalso
      have hrc := (insertErr_eq_none.mp hins).1
      rw [rowCheckErr_eq_none] at hrc
      have := hrc.2.2.2.2.1
      simp only [buildRow, checkEmailPattern] at this
      rw [this] at hbad
      cases hbad
  · intro db now u i db2 h
    obtain ⟨-, -, nm, em, dob, -, -, -, -, hrows⟩ := create_registration_ok h
    exact ⟨_, hrows, rfl⟩

/-- Witness for claim C2 at concrete inputs: a one-character name fails,
a malformed email fails, and a valid create stores status active. -/
theorem claim2_witness :
    (∃ m, create_registration exDB "2024-03-03 00:00:00"
        [("name", some "A"), ("email", some "x@yz.ab"), ("date_of_birth", some "1990-01-01")] =
      (Except.error (PyError.valueError m), exDB)) ∧
    (∃ m, create_registration exDB "2024-03-03 00:00:00"
        [("name", some "Eve Smith"), ("email", some "not-an-email"),
         ("date_of_birth", some "1990-01-01")] =
      (Except.error (PyError.valueError m), exDB)) ∧
    (∃ r, (create_registration emptyDB "2024-01-01 00:00:00" uStatusBogus).2.rows =
        emptyDB.rows ++ [r] ∧ r.status = some "active") :=
  ⟨claim2_thm.1 exDB "2024-03-03 00:00:00" _ "A" (some "1990-01-01") rfl (by decide)
     ⟨some "x@yz.ab", rfl⟩ rfl,
   claim2_thm.2.1 exDB "2024-03-03 00:00:00" _ (some "Eve Smith") "not-an-email"
     (some "1990-01-01") rfl rfl (by decide) rfl,
   claim2_thm.2.2 emptyDB "2024-01-01 00:00:00" uStatusBogus 1
     (create_registration emptyDB "2024-01-01 00:00:00" uStatusBogus).2 rfl⟩

/-! ## Claim C1: duplicate email on create and update -/

/-- Claim C1 counterexample: the claim states that an update whose email
equals an existing row's email fails with the duplicate-email error
produced by the duplicate-email condition check.  Updating row 2 of the
example state to row 1's email raises the generic ValueError carrying
the store's message instead: update_registration has no duplicate-email
check. -/
theorem claim1_counterexample :
    update_registration exDB 2 [("email", some "ab@cd.ef")] =
      (Except.error (PyError.valueError "UNIQUE constraint failed: Registration.email"), exDB) ∧
    PyError.valueError "UNIQUE constraint failed: Registration.email" ≠
      PyError.valueError "Email already exists" := by
  exact ⟨rfl, by decide⟩

/-- Claim C1, amended: a create whose email equals the email of a stored
row (other fields valid) fails with the duplicate-email error (ValueError
"Email already exists", produced by the duplicate-email condition check)
and leaves the store unchanged; an update patching a row's email to
another stored row's email also fails and also leaves the store
unchanged, but with the generic validation error carrying the store's
uniqueness message — the update path has no duplicate-email condition
check. -/
theorem claim1_thm :
    (∀ (db : DB) (now : String) (u : List (String × Value)) (nm e : String)
        (dob : Value) (r : Row),
      db.wf → r ∈ db.rows → r.email = some e →
      dictLookup u "name" = some (some nm) → 2 ≤ nm.length →
      dictLookup u "email" = some (some e) →
      dictLookup u "date_of_birth" = some dob → dob ≠ none →
      create_registration db now u =
        (Except.error (PyError.valueError "Email already exists"), db))
    ∧
    (∀ (db : DB) (i : Nat) (e : String) (r q : Row),
      db.wf → r ∈ db.rows → r.id = i → q ∈ db.rows → q.id ≠ i → q.email = some e →
      update_registration db i [("email", some e)] =
        (Except.error (PyError.valueError "UNIQUE constraint failed: Registration.email"),
         db)) := by
  constructor
  · rintro db now u nm e dob r ⟨hpw, hlt, hchk⟩ hr hre h1 hlen h2 h3 hdob
    rw [create_registration_with_keys db now h1 h2 h3]
    have hqc := hchk r hr
    rw [rowCheckErr_eq_none] at hqc
    have hpat : checkEmailPattern (some e) = true := by
      have h5 := hqc.2.2.2.2.1
      rwa [hre] at h5
    have hrc : rowCheckErr (buildRow db now (some nm) (some e) dob u) = none := by
      rw [rowCheckErr_eq_none]
      refine ⟨by simp [buildRow], by simp [buildRow], by simp [buildRow, h3, hdob],
        by simp [buildRow, checkStatus], hpat, ?_⟩
      simp only [buildRow, checkNameLen, decide_eq_true_eq]
      exact hlen
    have huniq : uniqueEmailErr db.rows (buildRow db now (some nm) (some e) dob u) =
        some IntegrityError.uniqueEmail := by
      simp only [uniqueEmailErr, buildRow]
      rw [if_pos]
      rw [List.any_eq_true]
      exact ⟨r, hr, by simp [hre]⟩
    have hins : insertErr db (buildRow db now (some nm) (some e) dob u) =
        some IntegrityError.uniqueEmail := by
      unfold insertErr
      rw [hrc]
      exact huniq
    rw [hins]
    rfl
  · rintro db i e r q ⟨hpw, hlt, hchk⟩ hr hid hq hqi hqe
    unfold update_registration
    have hfil : (([("email", some e)] : List (String × Value)).filter
        (fun kv => allowed_fields.contains kv.1)) = [("email", some e)] := rfl
    rw [hfil]
    simp only [List.isEmpty_cons, Bool.false_eq_true, if_false]
    split
    next hfind =>
      rw [find?_id_eq_some hpw hr hid] at hfind
      exact absurd hfind (by simp)
    next r' hfind =>
    rw [find?_id_eq_some hpw hr hid] at hfind
    injection hfind with hfind
    subst hfind
    have hap : applyPatch r [("email", some e)] = { r with email := some e } := rfl
    rw [hap]
    have hqc := hchk q hq
    rw [rowCheckErr_eq_none] at hqc
    have hrc0 := hchk r hr
    rw [rowCheckErr_eq_none] at hrc0
    have hrc : rowCheckErr { r with email := some e } = none := by
      rw [rowCheckErr_eq_none]
      refine ⟨hrc0.1, by simp, hrc0.2.2.1, hrc0.2.2.2.1, ?_, hrc0.2.2.2.2.2⟩
      have h5 := hqc.2.2.2.2.1
      rwa [hqe] at h5
    have huniq : uniqueEmailErr (db.rows.filter (fun q2 => q2.id ≠ i))
        { r with email := some e } = some IntegrityError.uniqueEmail := by
      simp only [uniqueEmailErr]
      rw [if_pos]
      rw [List.any_eq_true]
      refine ⟨q, ?_, by simp [hqe]⟩
      rw [List.mem_filter]
      exact ⟨hq, by simp [hqi]⟩
    rw [hrc, orElse_none_eq, huniq]
    rfl

/-- Witness for claim C1 at the two-row example state: a create reusing
row 1's email raises the duplicate-email message and leaves the state
unchanged; an update of row 2 to row 1's email raises the generic
uniqueness message and leaves the state unchanged. -/
theorem claim1_witness :
    create_registration exDB "2024-03-03 00:00:00"
        [("name", some "Cara"), ("email", some "ab@cd.ef"),
         ("date_of_birth", some "1995-05-05")] =
      (Except.error (PyError.valueError "Email already exists"), exDB) ∧
    update_registration exDB 2 [("email", some "ab@cd.ef")] =
      (Except.error (PyError.valueError "UNIQUE constraint failed: Registration.email"),
       exDB) :=
  ⟨claim1_thm.1 exDB "2024-03-03 00:00:00"
     [("name", some "Cara"), ("email", some "ab@cd.ef"), ("date_of_birth", some "1995-05-05")]
     "Cara" "ab@cd.ef" (some "1995-05-05") exRow1 (by decide) (by decide) rfl rfl
     (by decide) rfl rfl (by decide),
   claim1_thm.2 exDB 2 "ab@cd.ef" exRow2 exRow1 (by decide) (by decide) rfl (by decide)
     (by decide) rfl⟩

/-! ## Claim C4: readOne -/

/-- After a successful create on a well-formed state, reading the
returned id finds exactly the inserted row. -/
theorem read_registration_after_create {db db2 : DB} {now : String}
    {u : List (String × Value)} {i : Nat}
    (hwf : db.wf) (h : create_registration db now u = (Except.ok i, db2)) :
    ∃ nm em dob,
      dictLookup u "name" = some nm ∧ dictLookup u "email" = some em ∧
      dictLookup u "date_of_birth" = some dob ∧
      db2.rows = db.rows ++ [buildRow db now nm em dob u] ∧
      i = db.nextId ∧
      read_registration db2 i = some (buildRow db now nm em dob u).toDict := by
  obtain ⟨hi, hnext, nm, em, dob, hnm, hem, hdob, hins, hrows⟩ := create_registration_ok h
  refine ⟨nm, em, dob, hnm, hem, hdob, hrows, hi, ?_⟩
  have hnone : ∀ r ∈ db.rows, r.id ≠ i := by
    intro r hrm
    have := hwf.2.1 r hrm
    omega
  unfold read_registration
  rw [hrows, List.find?_append, find?_id_eq_none hnone, Option.none_or,
    List.find?_cons_of_pos _ (by simp [buildRow, hi])]
  rfl

/-- Claim C4: readOne returns the full stored row, as a mapping from
column name to value, of the unique row carrying the requested id; it
returns the explicit not-found value (None, not an error) when no row
carries the id; and on a freshly created id it returns the create input
plus the assigned id, the registration_date timestamp, and status
active. -/
theorem claim4_thm :
    (∀ (db : DB) (i : Nat) (r : Row),
      db.wf → r ∈ db.rows → r.id = i →
      read_registration db i = some r.toDict)
    ∧
    (∀ (db : DB) (i : Nat),
      (∀ r ∈ db.rows, r.id ≠ i) → read_registration db i = none)
    ∧
    (∀ (db : DB) (now : String) (u : List (String × Value)) (nm em dob : Value)
        (i : Nat) (db2 : DB),
      db.wf →
      dictLookup u "name" = some nm → dictLookup u "email" = some em →
      dictLookup u "date_of_birth" = some dob →
      create_registration db now u = (Except.ok i, db2) →
      read_registration db2 i = some (Row.toDict
        { id := i, name := nm, email := em, date_of_birth := dob,
          phone_number := pyGet u "phone_number", address := pyGet u "address",
          registration_date := some now, status := some "active" })) := by
  refine ⟨?_, ?_, ?_⟩
  · intro db i r hwf hr hid
    unfold read_registration
    rw [find?_id_eq_some hwf.1 hr hid]
    rfl
  · intro db i hno
    unfold read_registration
    rw [find?_id_eq_none hno]
    rfl
  · intro db now u nm em dob i db2 hwf hnm hem hdob hcr
    obtain ⟨nm2, em2, dob2, hnm2, hem2, hdob2, hrows, hi, hread⟩ :=
      read_registration_after_create hwf hcr
    rw [hnm] at hnm2
    rw [hem] at hem2
    rw [hdob] at hdob2
    injection hnm2 with hnm2
    injection hem2 with hem2
    injection hdob2 with hdob2
    subst hnm2
    subst hem2
    subst hdob2
    subst hi
    exact hread

/-- Witness for claim C4: reading id 1 of the example state returns row
1 as a dict; reading an absent id returns None; reading a freshly
created id returns the input plus id, timestamp and active status. -/
theorem claim4_witness :
    read_registration exDB 1 = some exRow1.toDict ∧
    read_registration exDB 999999 = none ∧
    read_registration
      (create_registration emptyDB "2024-01-01 00:00:00"
        [("name", some "John Doe"), ("email", some "john.doe@example.com"),
         ("date_of_birth", some "1990-01-01"), ("phone_number", some "1234567890"),
         ("address", some "123 Main St")]).2 1 =
      some (Row.toDict
        { id := 1, name := some "John Doe", email := some "john.doe@example.com",
          date_of_birth := some "1990-01-01",
          phone_number := pyGet
            [("name", some "John Doe"), ("email", some "john.doe@example.com"),
             ("date_of_birth", some "1990-01-01"), ("phone_number", some "1234567890"),
             ("address", some "123 Main St")] "phone_number",
          address := pyGet
            [("name", some "John Doe"), ("email", some "john.doe@example.com"),
             ("date_of_birth", some "1990-01-01"), ("phone_number", some "1234567890"),
             ("address", some "123 Main St")] "address",
          registration_date := some "2024-01-01 00:00:00", status := some "active" }) :=
  ⟨claim4_thm.1 exDB 1 exRow1 (by decide) (by decide) rfl,
   claim4_thm.2.1 exDB 999999 (by decide),
   claim4_thm.2.2 emptyDB "2024-01-01 00:00:00" _ (some "John Doe")
     (some "john.doe@example.com") (some "1990-01-01") 1
     (create_registration emptyDB "2024-01-01 00:00:00"
       [("name", some "John Doe"), ("email", some "john.doe@example.com"),
        ("date_of_birth", some "1990-01-01"), ("phone_number", some "1234567890"),
        ("address", some "123 Main St")]).2
     (by decide) rfl rfl rfl rfl⟩

/-! ## Claim C6: no-op and missing-row update -/

/-- Claim C6: an update whose patch filters down to nothing (in
particular a patch holding only disallowed keys such as id) raises the
no-op validation error before anything runs, leaving the store
unchanged; an update with a non-empty filtered patch on an id no row
carries returns False and leaves the store unchanged. -/
theorem claim6_thm :
    (∀ (db : DB) (i : Nat) (patch : List (String × Value)),
      (patch.filter (fun kv => allowed_fields.contains kv.1)).isEmpty = true →
      update_registration db i patch =
        (Except.error (PyError.valueError "No valid fields to update"), db))
    ∧
    (∀ (db : DB) (i : Nat) (patch : List (String × Value)),
      (patch.filter (fun kv => allowed_fields.contains kv.1)).isEmpty = false →
      (∀ r ∈ db.rows, r.id ≠ i) →
      update_registration db i patch = (Except.ok false, db)) := by
  constructor
  · intro db i patch h
    unfold update_registration
    rw [if_pos h]
  · intro db i patch h hno
    unfold update_registration
    rw [if_neg (by rw [h]; simp), find?_id_eq_none hno]

/-- Witness for claim C6: a patch holding only the disallowed id key
raises the no-op error on the example state; a phone patch on the
absent id 99 returns False and changes nothing. -/
theorem claim6_witness :
    update_registration exDB 1 [("id", some "42")] =
      (Except.error (PyError.valueError "No valid fields to update"), exDB) ∧
    update_registration exDB 99 [("phone_number", some "555")] =
      (Except.ok false, exDB) :=
  ⟨claim6_thm.1 exDB 1 [("id", some "42")] rfl,
   claim6_thm.2 exDB 99 [("phone_number", some "555")] rfl (by decide)⟩

/-! ## Claim C7: delete -/

/-- Claim C7: delete returns True exactly when a row carried the id, the
matching row is permanently removed (a subsequent readOne on the id
returns None), and deleting an absent id returns False and leaves the
store unchanged rather than raising. -/
theorem claim7_thm (db : DB) (i : Nat) :
    ((delete_registration db i).1 = true ↔ ∃ r ∈ db.rows, r.id = i)
    ∧ read_registration (delete_registration db i).2 i = none
    ∧ ((∀ r ∈ db.rows, r.id ≠ i) → delete_registration db i = (false, db)) := by
  refine ⟨?_, ?_, ?_⟩
  · simp [delete_registration, List.any_eq_true]
  · unfold read_registration delete_registration
    rw [find?_id_eq_none]
    · rfl
    · intro r hrm
      rw [List.mem_filter] at hrm
      simpa using hrm.2
  · intro h
    unfold delete_registration
    have h1 : (db.rows.any fun r => r.id = i) = false := by
      rw [List.any_eq_false]
      intro x hx
      simpa using h x hx
    have h2 : (db.rows.filter fun r => r.id ≠ i) = db.rows := by
      rw [List.filter_eq_self]
      intro a ha
      simpa using h a ha
    rw [h1, h2]

/-- Witness for claim C7 on the example state at the absent id 99: no
row matches, the read after the delete returns None, and the delete
returns False leaving the state unchanged. -/
theorem claim7_witness :
    ((delete_registration exDB 99).1 = true ↔ ∃ r ∈ exDB.rows, r.id = 99) ∧
    read_registration (delete_registration exDB 99).2 99 = none ∧
    delete_registration exDB 99 = (false, exDB) :=
  ⟨(claim7_thm exDB 99).1, (claim7_thm exDB 99).2.1, (claim7_thm exDB 99).2.2 (by decide)⟩

/-! ## Claim C5: update frame -/

/-- The phone-and-id patch used to instantiate the update frame claim. -/
def exPatch : List (String × Value) := [("phone_number", some "555"), ("id", some "42")]

/-- Claim C5: a successful update on the row carrying the requested id
rewrites that row to the patch applied to it and nothing else: every
other row is kept, the id and registration_date columns are never
written (even when the patch names them — such keys are filtered out
silently), and every column whose key is absent from the filtered patch
keeps its previous value. -/
theorem claim5_thm (db db2 : DB) (i : Nat) (patch : List (String × Value)) (r : Row)
    (b : Bool)
    (hwf : db.wf) (hr : r ∈ db.rows) (hid : r.id = i)
    (hup : update_registration db i patch = (Except.ok b, db2)) :
    b = true ∧
    ∃ r2 : Row,
      db2.rows = db.rows.map (fun q => if q.id = i then r2 else q) ∧
      r2.id = r.id ∧
      r2.registration_date = r.registration_date ∧
      ("name" ∉ (patch.filter (fun kv => allowed_fields.contains kv.1)).map Prod.fst →
        r2.name = r.name) ∧
      ("email" ∉ (patch.filter (fun kv => allowed_fields.contains kv.1)).map Prod.fst →
        r2.email = r.email) ∧
      ("date_of_birth" ∉ (patch.filter (fun kv => allowed_fields.contains kv.1)).map Prod.fst →
        r2.date_of_birth = r.date_of_birth) ∧
      ("phone_number" ∉ (patch.filter (fun kv => allowed_fields.contains kv.1)).map Prod.fst →
        r2.phone_number = r.phone_number) ∧
      ("address" ∉ (patch.filter (fun kv => allowed_fields.contains kv.1)).map Prod.fst →
        r2.address = r.address) ∧
      ("status" ∉ (patch.filter (fun kv => allowed_fields.contains kv.1)).map Prod.fst →
        r2.status = r.status) ∧
      (∀ q ∈ db.rows, q.id ≠ i → q ∈ db2.rows) := by
  obtain ⟨hpw, -, -⟩ := hwf
  unfold update_registration at hup
  by_cases hemp : (patch.filter (fun kv => allowed_fields.contains kv.1)).isEmpty = true
  · rw [if_pos hemp] at hup
    simp at hup
  · rw [if_neg hemp] at hup
    split at hup
    next hfind =>
      rw [find?_id_eq_some hpw hr hid] at hfind
      exact absurd hfind (by simp)
    next r' hfind =>
    rw [find?_id_eq_some hpw hr hid] at hfind
    injection hfind with hfind
    subst hfind
    split at hup
    next ie horl => simp at hup
    next horl =>
      simp only [Prod.mk.injEq, Except.ok.injEq] at hup
      obtain ⟨hb, hdb2⟩ := hup
      refine ⟨hb.symm, applyPatch r (patch.filter (fun kv => allowed_fields.contains kv.1)),
        by rw [← hdb2], applyPatch_id _ _, applyPatch_registration_date _ _,
        fun h => applyPatch_name _ _ h, fun h => applyPatch_email _ _ h,
        fun h => applyPatch_dob _ _ h, fun h => applyPatch_phone _ _ h,
        fun h => applyPatch_address _ _ h, fun h => applyPatch_status _ _ h,
        ?_⟩
      intro q hq hqi
      rw [← hdb2]
      exact List.mem_map.mpr ⟨q, hq, by simp [hqi]⟩

/-- Witness for claim C5: patching row 1 of the example state with a
phone number and a disallowed id key succeeds and satisfies every frame
condition at those concrete values. -/
theorem claim5_witness :
    true = true ∧
    ∃ r2 : Row,
      ((update_registration exDB 1 exPatch).2).rows =
        exDB.rows.map (fun q => if q.id = 1 then r2 else q) ∧
      r2.id = exRow1.id ∧
      r2.registration_date = exRow1.registration_date ∧
      ("name" ∉ (exPatch.filter (fun kv => allowed_fields.contains kv.1)).map Prod.fst →
        r2.name = exRow1.name) ∧
      ("email" ∉ (exPatch.filter (fun kv => allowed_fields.contains kv.1)).map Prod.fst →
        r2.email = exRow1.email) ∧
      ("date_of_birth" ∉ (exPatch.filter (fun kv => allowed_fields.contains kv.1)).map Prod.fst →
        r2.date_of_birth = exRow1.date_of_birth) ∧
      ("phone_number" ∉ (exPatch.filter (fun kv => allowed_fields.contains kv.1)).map Prod.fst →
        r2.phone_number = exRow1.phone_number) ∧
      ("address" ∉ (exPatch.filter (fun kv => allowed_fields.contains kv.1)).map Prod.fst →
        r2.address = exRow1.address) ∧
      ("status" ∉ (exPatch.filter (fun kv => allowed_fields.contains kv.1)).map Prod.fst →
        r2.status = exRow1.status) ∧
      (∀ q ∈ exDB.rows, q.id ≠ 1 → q ∈ ((update_registration exDB 1 exPatch).2).rows) :=
  claim5_thm exDB (update_registration exDB 1 exPatch).2 1 exPatch exRow1 true
    (by decide) (by decide) rfl rfl

/-! ## Claim C8: assigned ids -/

/-- Claim C8: a create with the three required keys present, a valid
name and email, and an email no stored row carries, succeeds and
returns the current AUTOINCREMENT counter as the new id, advancing the
counter; and the ids returned by two successive successful creates are
strictly increasing (hence distinct). -/
theorem claim8_thm :
    (∀ (db : DB) (now : String) (u : List (String × Value)) (nm em : String) (dob : Value),
      dictLookup u "name" = some (some nm) → 2 ≤ nm.length →
      dictLookup u "email" = some (some em) → emailOk em = true →
      dictLookup u "date_of_birth" = some dob → dob ≠ none →
      (∀ r ∈ db.rows, r.email ≠ some em) →
      create_registration db now u =
        (Except.ok db.nextId,
         { rows := db.rows ++ [buildRow db now (some nm) (some em) dob u],
           nextId := db.nextId + 1 }))
    ∧
    (∀ (db1 db2 db3 : DB) (t1 t2 : String) (u1 u2 : List (String × Value)) (i1 i2 : Nat),
      create_registration db1 t1 u1 = (Except.ok i1, db2) →
      create_registration db2 t2 u2 = (Except.ok i2, db3) →
      i1 < i2 ∧ i1 ≠ i2) := by
  constructor
  · intro db now u nm em dob h1 hlen h2 hem h3 hdob hfresh
    rw [create_registration_with_keys db now h1 h2 h3]
    have hany : (db.rows.any fun q => q.email = some em) = false := by
      rw [List.any_eq_false]
      intro x hx
      simpa using hfresh x hx
    have hins : insertErr db (buildRow db now (some nm) (some em) dob u) = none := by
      rw [insertErr_eq_none]
      constructor
      · rw [rowCheckErr_eq_none]
        refine ⟨by simp [buildRow], by simp [buildRow], by simp [buildRow, hdob],
          by simp [buildRow, checkStatus], ?_, ?_⟩
        · show checkEmailPattern (some em) = true
          simpa [checkEmailPattern] using hem
        · show checkNameLen (some nm) = true
          simp [checkNameLen]
          omega
      · simp only [uniqueEmailErr, buildRow, hany, Bool.false_eq_true, if_false]
    rw [hins]
  · intro db1 db2 db3 t1 t2 u1 u2 i1 i2 h1 h2
    obtain ⟨hi1, hn1, -⟩ := create_registration_ok h1
    obtain ⟨hi2, -, -⟩ := create_registration_ok h2
    subst hi1
    subst hi2
    rw [hn1]
    omega

/-- Witness for claim C8: creating a fresh-email user on the example
state returns its counter 3 and appends the built row; two successive
creates from the empty store return 1 then 2. -/
theorem claim8_witness :
    create_registration exDB "2024-04-04 00:00:00"
        [("name", some "Dana"), ("email", some "dd@ee.ff"),
         ("date_of_birth", some "1992-02-02")] =
      (Except.ok exDB.nextId,
       { rows := exDB.rows ++ [buildRow exDB "2024-04-04 00:00:00" (some "Dana")
           (some "dd@ee.ff") (some "1992-02-02")
           [("name", some "Dana"), ("email", some "dd@ee.ff"),
            ("date_of_birth", some "1992-02-02")]],
         nextId := exDB.nextId + 1 }) ∧
    (1 < 2 ∧ (1 : Nat) ≠ 2) :=
  ⟨claim8_thm.1 exDB "2024-04-04 00:00:00"
     [("name", some "Dana"), ("email", some "dd@ee.ff"), ("date_of_birth", some "1992-02-02")]
     "Dana" "dd@ee.ff" (some "1992-02-02") rfl (by decide) rfl (by decide) rfl
     (by decide) (by decide),
   claim8_thm.2 emptyDB
     (create_registration emptyDB "2024-01-01 00:00:00"
       [("name", some "Ann Lee"), ("email", some "ab@cd.ef"),
        ("date_of_birth", some "1990-01-01")]).2
     (create_registration
       (create_registration emptyDB "2024-01-01 00:00:00"
         [("name", some "Ann Lee"), ("email", some "ab@cd.ef"),
          ("date_of_birth", some "1990-01-01")]).2
       "2024-01-02 00:00:00"
       [("name", some "Bob Roy"), ("email", some "gh@ij.kl"),
        ("date_of_birth", some "1991-02-02")]).2
     "2024-01-01 00:00:00" "2024-01-02 00:00:00"
     [("name", some "Ann Lee"), ("email", some "ab@cd.ef"),
      ("date_of_birth", some "1990-01-01")]
     [("name", some "Bob Roy"), ("email", some "gh@ij.kl"),
      ("date_of_birth", some "1991-02-02")]
     1 2 (by rfl) (by rfl)⟩

/-! ## Claim C9: readAll round-trip -/

/-- Two rows with equal dict renderings carry the same id (the id cell
heads the dict). -/
theorem toDict_id_eq {q r : Row} (h : q.toDict = r.toDict) : q.id = r.id := by
  simp only [Row.toDict, List.cons.injEq, Prod.mk.injEq, true_and] at h
  exact Cell.int.injEq .. ▸ h.1

/-- Claim C9: readAll on a state with no rows returns the empty list (a
value, never a missing result); and after any successful create on a
well-formed state, readAll contains exactly one entry equal to what
readOne returns for the assigned id. -/
theorem claim9_thm :
    (∀ db : DB, db.rows = [] → read_all_registrations db = [])
    ∧
    (∀ (db : DB) (now : String) (u : List (String × Value)) (i : Nat) (db2 : DB),
      db.wf →
      create_registration db now u = (Except.ok i, db2) →
      ∃ d, read_registration db2 i = some d ∧
        (read_all_registrations db2).count d = 1) := by
  constructor
  · intro db h
    simp [read_all_registrations, h]
  · intro db now u i db2 hwf hcr
    obtain ⟨nm, em, dob, -, -, -, hrows, hi, hread⟩ :=
      read_registration_after_create hwf hcr
    refine ⟨(buildRow db now nm em dob u).toDict, hread, ?_⟩
    unfold read_all_registrations
    rw [hrows, List.map_append, List.count_append]
    have hzero : ((db.rows.map Row.toDict).count (buildRow db now nm em dob u).toDict) = 0 := by
      rw [List.count_eq_zero]
      intro hmem
      obtain ⟨q, hq, hqd⟩ := List.mem_map.mp hmem
      have hqe := toDict_id_eq hqd
      have := hwf.2.1 q hq
      simp only [buildRow] at hqe
      omega
    rw [hzero, List.map_cons, List.map_nil]
    simp [List.count_singleton_self]

/-- Witness for claim C9: readAll on the fresh store is empty, and after
creating one valid user the store holds exactly one entry matching what
readOne returns for id 1. -/
theorem claim9_witness :
    read_all_registrations emptyDB = [] ∧
    ∃ d, read_registration
        (create_registration emptyDB "2024-01-01 00:00:00"
          [("name", some "John Doe"), ("email", some "john.doe@example.com"),
           ("date_of_birth", some "1990-01-01")]).2 1 = some d ∧
      (read_all_registrations
        (create_registration emptyDB "2024-01-01 00:00:00"
          [("name", some "John Doe"), ("email", some "john.doe@example.com"),
           ("date_of_birth", some "1990-01-01")]).2).count d = 1 :=
  ⟨claim9_thm.1 emptyDB rfl,
   claim9_thm.2 emptyDB "2024-01-01 00:00:00"
     [("name", some "John Doe"), ("email", some "john.doe@example.com"),
      ("date_of_birth", some "1990-01-01")]
     1
     (create_registration emptyDB "2024-01-01 00:00:00"
       [("name", some "John Doe"), ("email", some "john.doe@example.com"),
        ("date_of_birth", some "1990-01-01")]).2
     (by decide) (by rfl)⟩
